import Mathlib

/-!
Verification of the substack2markdown scraper (src/substack2markdown/substack_scraper.py)
against its natural-language specification.

The Python code is shallowly embedded: Python strings are Lean Strings (lists of
Chars), Python exceptions become an explicit PyErr error type threaded through
Except, the filesystem and network are explicit state / oracle parameters, and
the standard-library calls used by the code (json.loads, str.strip, str.split,
urllib unquote, datetime parsing and formatting) are modelled as executable Lean
functions on the character lists, restricted where noted to the fragments the
scraper exercises.
-/

set_option maxRecDepth 100000

/-- Python whitespace for str.strip and for the regex class backslash-s
(ASCII fragment: space, tab, newline, carriage return, vertical tab, form feed). -/
def isPyWs (c : Char) : Bool :=
  c == ' ' || c == '\t' || c == '\n' || c == '\r' || c == Char.ofNat 11 || c == Char.ofNat 12

/-- Model of Python str.strip() on the underlying character list. -/
def pyStripL (cs : List Char) : List Char :=
  ((cs.dropWhile isPyWs).reverse.dropWhile isPyWs).reverse

/-- Model of Python str.strip(). -/
def pyStrip (s : String) : String :=
  ⟨pyStripL s.data⟩

/-- First index of a character in a list, if any (Python str.find on one char). -/
def firstIdx? (c : Char) : List Char → Option Nat
  | [] => none
  | a :: rest => if a = c then some 0 else (firstIdx? c rest).map (· + 1)

/-- Last index of a character in a list, if any (Python str.rfind on one char). -/
def lastIdx? (c : Char) : List Char → Option Nat
  | [] => none
  | a :: rest =>
    match lastIdx? c rest with
    | some i => some (i + 1)
    | none => if a = c then some 0 else none

/-- Python str.find: index of the first occurrence, or -1. -/
def pyFind (s : String) (c : Char) : Int :=
  match firstIdx? c s.data with
  | some i => (i : Int)
  | none => -1

/-- Python str.rfind: index of the last occurrence, or -1. -/
def pyRFind (s : String) (c : Char) : Int :=
  match lastIdx? c s.data with
  | some i => (i : Int)
  | none => -1

/-- Python slice index normalisation: negative indices count from the end,
then the index is clamped into [0, len]. -/
def pySliceIdx (len : Nat) (i : Int) : Nat :=
  (if i < 0 then max 0 ((len : Int) + i) else min (len : Int) i).toNat

/-- Model of the Python slice s[a:b] (step 1) on a character list. -/
def pySliceL (cs : List Char) (a b : Int) : List Char :=
  (cs.take (pySliceIdx cs.length b)).drop (pySliceIdx cs.length a)

/-- Model of the Python slice s[a:b]. -/
def pySlice (s : String) (a b : Int) : String :=
  ⟨pySliceL s.data a b⟩

/-- Whether sep occurs as a contiguous sublist of cs (Python infix containment). -/
def containsSubL (sep : List Char) : List Char → Bool
  | [] => sep.isPrefixOf []
  | c :: rest => sep.isPrefixOf (c :: rest) || containsSubL sep rest

/-- Fuelled worker for Python str.split(sep) with a non-empty separator:
scan left to right, cutting at each non-overlapping occurrence of sep.
The fuel is an upper bound on the number of steps; callers pass the input
length, which suffices because every step consumes at least one character. -/
def splitOnSubAux (sep : List Char) : Nat → List Char → List Char → List (List Char)
  | 0, cs, acc => [acc.reverse ++ cs]
  | _ + 1, [], acc => [acc.reverse]
  | fuel + 1, c :: rest, acc =>
    if sep.isPrefixOf (c :: rest) then
      acc.reverse :: splitOnSubAux sep fuel ((c :: rest).drop sep.length) []
    else
      splitOnSubAux sep fuel rest (c :: acc)

/-- Model of Python str.split(sep) for a non-empty separator. -/
def pySplit (s sep : String) : List String :=
  (splitOnSubAux sep.data s.data.length s.data []).map (fun l => (⟨l⟩ : String))

/-- Model of Python str.replace(old, new): split on old and rejoin with new. -/
def pyReplace (s old new : String) : String :=
  ⟨List.intercalate new.data (splitOnSubAux old.data s.data.length s.data [])⟩

/-- Hexadecimal digit value, if the character is a hex digit. -/
def hexVal? (c : Char) : Option Nat :=
  if '0' ≤ c ∧ c ≤ '9' then some (c.toNat - '0'.toNat)
  else if 'a' ≤ c ∧ c ≤ 'f' then some (c.toNat - 'a'.toNat + 10)
  else if 'A' ≤ c ∧ c ≤ 'F' then some (c.toNat - 'A'.toNat + 10)
  else none

/-- Model of urllib.parse.unquote on a character list, restricted to
single-byte (ASCII) percent escapes: a valid %XX pair decodes to the
character with that code, an invalid escape is left as literal text. -/
def pyUnquoteL : List Char → List Char
  | [] => []
  | '%' :: a :: b :: rest =>
    match hexVal? a, hexVal? b with
    | some ha, some hb => Char.ofNat (16 * ha + hb) :: pyUnquoteL rest
    | _, _ => '%' :: pyUnquoteL (a :: b :: rest)
  | c :: rest => c :: pyUnquoteL rest

/-- Model of urllib.parse.unquote. -/
def pyUnquote (s : String) : String :=
  ⟨pyUnquoteL s.data⟩

/-- Digit characters of a natural number, most significant first, fuelled
(the fuel bounds the number of divisions; n + 1 always suffices). -/
def natDigitsAux : Nat → Nat → List Char → List Char
  | 0, _, acc => acc
  | fuel + 1, n, acc =>
    if n < 10 then Char.ofNat (48 + n) :: acc
    else natDigitsAux fuel (n / 10) (Char.ofNat (48 + n % 10) :: acc)

/-- Decimal rendering of a natural number (Python str on a non-negative int). -/
def natDigitsStr (n : Nat) : String :=
  ⟨natDigitsAux (n + 1) n []⟩

/-- Model of Python str on an int. -/
def intStr (n : Int) : String :=
  if n < 0 then "-" ++ natDigitsStr n.natAbs else natDigitsStr n.toNat

/-- Model of Python str.isdigit (ASCII digits): non-empty and all digits. -/
def isDigitStr (s : String) : Bool :=
  !s.data.isEmpty && s.data.all Char.isDigit

/-- Numeric value of a list of decimal digit characters. -/
def digitsToNat (ds : List Char) : Nat :=
  ds.foldl (fun a c => a * 10 + (c.toNat - 48)) 0

/-- Python exceptions that the modelled code can raise. -/
inductive PyErr where
  | nameError (n : String)
  | assertionError (msg : String)
  | indexError
  | jsonDecodeError
  | typeError
  | valueError
deriving Repr, DecidableEq

/-- Decidable equality of Except results, to evaluate the modelled
computations inside decide. -/
instance {e a : Type} [DecidableEq e] [DecidableEq a] : DecidableEq (Except e a) := fun x y =>
  match x, y with
  | .ok v, .ok w => if h : v = w then .isTrue (by rw [h]) else .isFalse (by simp [h])
  | .error v, .error w => if h : v = w then .isTrue (by rw [h]) else .isFalse (by simp [h])
  | .ok _, .error _ => .isFalse (by simp)
  | .error _, .ok _ => .isFalse (by simp)

/-- JSON values as decoded by Python json.loads
(numbers restricted to integers, the only kind the scraper reads). -/
inductive Json where
  | null
  | bool (b : Bool)
  | num (n : Int)
  | str (s : String)
  | arr (xs : List Json)
  | obj (kvs : List (String × Json))

/-- JSON whitespace accepted between tokens by json.loads. -/
def jsonWs (c : Char) : Bool :=
  c == ' ' || c == '\t' || c == '\n' || c == '\r'

/-- Body of a JSON string literal, after the opening quote: collect characters
up to the closing quote, decoding the JSON escapes. Fuelled; the input length
plus one suffices since every step consumes at least one character. -/
def parseStrBody : Nat → List Char → List Char → Except PyErr (String × List Char)
  | 0, _, _ => .error .jsonDecodeError
  | fuel + 1, cs, acc =>
    match cs with
    | [] => .error .jsonDecodeError
    | '"' :: rest => .ok ((⟨acc.reverse⟩ : String), rest)
    | '\\' :: e :: rest =>
      match e with
      | '"' => parseStrBody fuel rest ('"' :: acc)
      | '\\' => parseStrBody fuel rest ('\\' :: acc)
      | '/' => parseStrBody fuel rest ('/' :: acc)
      | 'b' => parseStrBody fuel rest (Char.ofNat 8 :: acc)
      | 'f' => parseStrBody fuel rest (Char.ofNat 12 :: acc)
      | 'n' => parseStrBody fuel rest ('\n' :: acc)
      | 'r' => parseStrBody fuel rest ('\r' :: acc)
      | 't' => parseStrBody fuel rest ('\t' :: acc)
      | 'u' =>
        match rest with
        | h1 :: h2 :: h3 :: h4 :: rest2 =>
          match hexVal? h1, hexVal? h2, hexVal? h3, hexVal? h4 with
          | some a, some b, some c, some d =>
            parseStrBody fuel rest2 (Char.ofNat (((a * 16 + b) * 16 + c) * 16 + d) :: acc)
          | _, _, _, _ => .error .jsonDecodeError
        | _ => .error .jsonDecodeError
      | _ => .error .jsonDecodeError
    | c :: rest => parseStrBody fuel rest (c :: acc)

mutual

/-- Recursive-descent model of json.loads on one value: returns the value and
the unconsumed remainder. The shared fuel bounds the recursion depth across
the three workers; the input length plus one suffices because every recursive
call first consumes at least one character. -/
def parseJsonVal : Nat → List Char → Except PyErr (Json × List Char)
  | 0, _ => .error .jsonDecodeError
  | fuel + 1, cs0 =>
    match cs0.dropWhile jsonWs with
    | [] => .error .jsonDecodeError
    | '"' :: rest =>
      match parseStrBody (rest.length + 1) rest [] with
      | .error e => .error e
      | .ok (s, rest2) => .ok (.str s, rest2)
    | '{' :: rest => parseObjItems fuel (rest.dropWhile jsonWs) []
    | '[' :: rest => parseArrItems fuel (rest.dropWhile jsonWs) []
    | 't' :: rest =>
      if ['r', 'u', 'e'].isPrefixOf rest then .ok (.bool true, rest.drop 3)
      else .error .jsonDecodeError
    | 'f' :: rest =>
      if ['a', 'l', 's', 'e'].isPrefixOf rest then .ok (.bool false, rest.drop 4)
      else .error .jsonDecodeError
    | 'n' :: rest =>
      if ['u', 'l', 'l'].isPrefixOf rest then .ok (.null, rest.drop 3)
      else .error .jsonDecodeError
    | '-' :: rest =>
      let ds := rest.takeWhile Char.isDigit
      if ds.isEmpty then .error .jsonDecodeError
      else .ok (.num (-(digitsToNat ds : Int)), rest.dropWhile Char.isDigit)
    | c :: rest =>
      if c.isDigit then
        let all := c :: rest
        .ok (.num (digitsToNat (all.takeWhile Char.isDigit)), all.dropWhile Char.isDigit)
      else .error .jsonDecodeError

/-- Items of a JSON array, positioned either at the closing bracket (only
legal for an empty array) or at the next value. -/
def parseArrItems : Nat → List Char → List Json → Except PyErr (Json × List Char)
  | 0, _, _ => .error .jsonDecodeError
  | fuel + 1, cs, acc =>
    match cs with
    | ']' :: rest =>
      if acc.isEmpty then .ok (.arr [], rest) else .error .jsonDecodeError
    | _ =>
      match parseJsonVal fuel cs with
      | .error e => .error e
      | .ok (v, rest) =>
        match rest.dropWhile jsonWs with
        | ',' :: rest2 => parseArrItems fuel (rest2.dropWhile jsonWs) (v :: acc)
        | ']' :: rest2 => .ok (.arr (v :: acc).reverse, rest2)
        | _ => .error .jsonDecodeError

/-- Members of a JSON object, positioned either at the closing brace (only
legal for an empty object) or at the next string key. -/
def parseObjItems : Nat → List Char → List (String × Json) → Except PyErr (Json × List Char)
  | 0, _, _ => .error .jsonDecodeError
  | fuel + 1, cs, acc =>
    match cs with
    | '}' :: rest =>
      if acc.isEmpty then .ok (.obj [], rest) else .error .jsonDecodeError
    | '"' :: rest =>
      match parseStrBody (rest.length + 1) rest [] with
      | .error e => .error e
      | .ok (key, rest1) =>
        match rest1.dropWhile jsonWs with
        | ':' :: rest2 =>
          match parseJsonVal fuel (rest2.dropWhile jsonWs) with
          | .error e => .error e
          | .ok (v, rest3) =>
            match rest3.dropWhile jsonWs with
            | ',' :: rest4 => parseObjItems fuel (rest4.dropWhile jsonWs) ((key, v) :: acc)
            | '}' :: rest4 => .ok (.obj ((key, v) :: acc).reverse, rest4)
            | _ => .error .jsonDecodeError
        | _ => .error .jsonDecodeError
    | _ => .error .jsonDecodeError

end

/-- Model of Python json.loads: parse exactly one JSON document,
allowing only trailing whitespace. -/
def json_loads (s : String) : Except PyErr Json :=
  match parseJsonVal (s.data.length + 1) s.data with
  | .error e => .error e
  | .ok (v, rest) =>
    if (rest.dropWhile jsonWs).isEmpty then .ok v else .error .jsonDecodeError

/-- Python truthiness of a decoded JSON value (bool(x) on the Python object). -/
def Json.truthy : Json → Bool
  | .null => false
  | .bool b => b
  | .num n => n != 0
  | .str s => !s.data.isEmpty
  | .arr xs => !xs.isEmpty
  | .obj kvs => !kvs.isEmpty

/-- The double decode in get_window_preloads, line 410 of the source:
json.loads(json.loads(text)). The outer Python json.loads call requires its
argument to be a string, so a non-string inner result raises TypeError. -/
def json_loads_twice (s : String) : Except PyErr Json :=
  match json_loads s with
  | .error e => .error e
  | .ok (Json.str inner) => json_loads inner
  | .ok _ => .error .typeError

/-- The argument sliced out of a qualifying script text in get_window_preloads:
pos1 = text.find left parenthesis plus one, pos2 = text.rfind right parenthesis,
then the Python slice text[pos1:pos2]. -/
def preload_slice (script_text : String) : String :=
  pySlice script_text (pyFind script_text '(' + 1) (pyRFind script_text ')')

/-- Loop of get_window_preloads (source lines 403 to 413) over the script
elements of the page, each given by its text. The first script whose stripped
text starts with the marker is double decoded and the loop breaks; the final
assert checks truthiness of the result. Its message f-string mentions a
variable url that is not in scope in the function, so when the assert fires
Python raises NameError (not AssertionError) while building the message. -/
def get_window_preloads_loop : List String → Except PyErr Json
  | [] => Except.error (PyErr.nameError "url")
  | s :: rest =>
    let t := pyStrip s
    if "window._preloads".data.isPrefixOf t.data then
      match json_loads_twice (preload_slice t) with
      | .error e => .error e
      | .ok j => if j.truthy then .ok j else .error (.nameError "url")
    else get_window_preloads_loop rest

/-- Model of BaseSubstackScraper.get_window_preloads (source lines 395 to 413);
a parsed page is represented by the list of texts of its script elements. -/
def get_window_preloads (scripts : List String) : Except PyErr Json :=
  get_window_preloads_loop scripts

/-- A comment node as consumed by count_comments: the only field the counting
code reads is the list of child comments under the key children. -/
inductive Comment where
  | node (children : List Comment)

/-- The children list of a comment node. -/
def Comment.children : Comment → List Comment
  | .node cs => cs

mutual

/-- Model of count_comments_inner (source lines 417 to 421): res starts at 1
and the loop over the children adds each recursive count. -/
def count_comments_inner : Comment → Nat
  | .node children => count_comments_fold 1 children

/-- The accumulating loop over a list of comments shared by
count_comments_inner and the top-level loop of count_comments. -/
def count_comments_fold : Nat → List Comment → Nat
  | res, [] => res
  | res, c :: rest => count_comments_fold (res + count_comments_inner c) rest

end

/-- The comments preload payload as read by count_comments: the array under
the key initialComments holds all top-level comments. -/
structure CommentsPreloads where
  initialComments : List Comment

/-- Model of BaseSubstackScraper.count_comments (source lines 415 to 426):
res starts at 0 and the loop over initialComments adds each tree count. -/
def count_comments (p : CommentsPreloads) : Nat :=
  count_comments_fold 0 p.initialComments

/-- A record of the posts index (one JSON object of posts.json). Identity is
the integer post id; the remaining fields of the Python dict (slug, title,
dates, links, counts) are represented by one opaque payload string, enough to
tell two records with the same id apart. -/
structure PostRec where
  id : Int
  payload : String
deriving Repr, DecidableEq

/-- Comparison used by the final sort of save_posts_data_json: Python sorts
ascending and stably by the key minus id, which orders a before b exactly when
the id of b is at most the id of a. -/
def postLeDesc (a b : PostRec) : Prop := b.id ≤ a.id

instance : DecidableRel postLeDesc := fun a b => inferInstanceAs (Decidable (b.id ≤ a.id))

instance : IsTotal PostRec postLeDesc := ⟨fun a b => le_total b.id a.id⟩

instance : IsTrans PostRec postLeDesc := ⟨fun _ _ _ h1 h2 => le_trans h2 h1⟩

/-- Model of BaseSubstackScraper.save_posts_data_json (source lines 516 to
535). The filesystem is explicit: existing is the parsed content of the index
file when it exists, none when it does not. When the file exists the source
builds new_post_ids from the batch and then filters posts_data (the batch
itself, line 530) rather than the loaded existing_data, so the filtered list
is always empty; the loaded records are dropped. Python list.sort is stable,
modelled by the stable insertion sort on the descending id order. The function
returns the list written back to the file. -/
def save_posts_data_json (existing : Option (List PostRec)) (batch : List PostRec) :
    List PostRec :=
  let posts_data :=
    match existing with
    | none => batch
    | some _existing_data =>
      let new_post_ids := batch.map (fun p => p.id)
      let filtered := batch.filter (fun p => !(new_post_ids.contains p.id))
      filtered ++ batch
  List.insertionSort postLeDesc posts_data

/-- Parse exactly n leading decimal digits, returning their value and the
remainder. -/
def parseNDigits (n : Nat) (cs : List Char) : Option (Nat × List Char) :=
  let ds := cs.take n
  if ds.length = n ∧ ds.all Char.isDigit then some (digitsToNat ds, cs.drop n) else none

/-- Consume one expected character. -/
def expectChar (c : Char) : List Char → Option (List Char)
  | a :: rest => if a = c then some rest else none
  | [] => none

/-- Field extraction for datetime.strptime with format
%Y-%m-%dT%H:%M:%S.%fZ, without the range validation: four digit year, two
digit month, day, hour, minute and second, a fractional part of one to six
digits, a literal Z, end of input. -/
def strptimeParts (s : String) : Option (Nat × Nat × Nat × Nat × Nat × Nat) := do
  let (y, r) ← parseNDigits 4 s.data
  let r ← expectChar '-' r
  let (mo, r) ← parseNDigits 2 r
  let r ← expectChar '-' r
  let (d, r) ← parseNDigits 2 r
  let r ← expectChar 'T' r
  let (hh, r) ← parseNDigits 2 r
  let r ← expectChar ':' r
  let (mi, r) ← parseNDigits 2 r
  let r ← expectChar ':' r
  let (ss, r) ← parseNDigits 2 r
  let r ← expectChar '.' r
  let frac := r.takeWhile Char.isDigit
  if frac.length < 1 ∨ 6 < frac.length then none
  else
    let r := r.dropWhile Char.isDigit
    let r ← expectChar 'Z' r
    if r.isEmpty then some (y, mo, d, hh, mi, ss) else none

/-- Model of datetime.strptime(s, "%Y-%m-%dT%H:%M:%S.%fZ"), reduced to the
(year, month, day) triple that the subsequent strftime("%b %d, %Y") reads;
out-of-range fields raise ValueError, modelled as none. -/
def strptimeMs (s : String) : Option (Nat × Nat × Nat) :=
  match strptimeParts s with
  | none => none
  | some (y, mo, d, hh, mi, ss) =>
    if 1 ≤ mo ∧ mo ≤ 12 ∧ 1 ≤ d ∧ d ≤ 31 ∧ hh ≤ 23 ∧ mi ≤ 59 ∧ ss ≤ 61 then
      some (y, mo, d)
    else none

/-- Trailing UTC-offset part accepted by datetime.fromisoformat:
empty, or a sign followed by HH:MM. -/
def isoOffsetOk : List Char → Bool
  | [] => true
  | c :: r =>
    if c = '+' ∨ c = '-' then
      match parseNDigits 2 r with
      | some (ho, r1) =>
        match expectChar ':' r1 with
        | some r2 =>
          match parseNDigits 2 r2 with
          | some (mo, r3) => r3.isEmpty && decide (ho ≤ 23) && decide (mo ≤ 59)
          | none => false
        | none => false
      | none => false
    else false

/-- Model of datetime.fromisoformat, restricted to the ISO-8601 fragment the
scraper can meet after replacing Z by an explicit offset:
YYYY-MM-DD, optionally followed by T or space, HH:MM:SS, an optional
fractional part, and an optional +HH:MM or -HH:MM offset. Reduced to the
(year, month, day) triple that the subsequent strftime reads. -/
def fromisoformat (s : String) : Option (Nat × Nat × Nat) := do
  let (y, r) ← parseNDigits 4 s.data
  let r ← expectChar '-' r
  let (mo, r) ← parseNDigits 2 r
  let r ← expectChar '-' r
  let (d, r) ← parseNDigits 2 r
  if ¬ (1 ≤ mo ∧ mo ≤ 12 ∧ 1 ≤ d ∧ d ≤ 31) then none
  else match r with
  | [] => some (y, mo, d)
  | c :: r1 =>
    if c = 'T' ∨ c = ' ' then do
      let (hh, r2) ← parseNDigits 2 r1
      let r2 ← expectChar ':' r2
      let (mi, r3) ← parseNDigits 2 r2
      let r3 ← expectChar ':' r3
      let (ss, r4) ← parseNDigits 2 r3
      if ¬ (hh ≤ 23 ∧ mi ≤ 59 ∧ ss ≤ 61) then none
      else
        let r5 ← match r4 with
          | '.' :: rf =>
            let ds := rf.takeWhile Char.isDigit
            if 1 ≤ ds.length ∧ ds.length ≤ 6 then some (rf.dropWhile Char.isDigit)
            else none
          | _ => some r4
        if isoOffsetOk r5 then some (y, mo, d) else none
    else none

/-- Month abbreviations used by strftime %b in the C locale. -/
def month_abbr : Nat → String
  | 1 => "Jan"
  | 2 => "Feb"
  | 3 => "Mar"
  | 4 => "Apr"
  | 5 => "May"
  | 6 => "Jun"
  | 7 => "Jul"
  | 8 => "Aug"
  | 9 => "Sep"
  | 10 => "Oct"
  | 11 => "Nov"
  | 12 => "Dec"
  | _ => ""

/-- Two-digit zero-padded decimal (strftime %d). -/
def pad2 (n : Nat) : String :=
  if n < 10 then "0" ++ natDigitsStr n else natDigitsStr n

/-- Model of strftime("%b %d, %Y") on a (year, month, day) triple,
for example Oct 01, 2025. -/
def strftime_b_d_Y (y mo d : Nat) : String :=
  month_abbr mo ++ " " ++ pad2 d ++ ", " ++ natDigitsStr y

/-- A Python value that can sit in the like_count field: the raw-markup path
produces a str, the preload path produces the JSON int. -/
inductive PyVal where
  | str (s : String)
  | int (n : Int)
deriving Repr, DecidableEq

/-- Python str() of such a value, as used by the f-string in
combine_metadata_and_content. -/
def pyValStr : PyVal → String
  | .str s => s
  | .int n => intStr n

/-- Model of BaseSubstackScraper.combine_metadata_and_content (source lines
302 to 319): heading, optional subheading, bold date line, bold likes line,
then the content. -/
def combine_metadata_and_content
    (title subtitle date : String) (like_count : PyVal) (content : String) : String :=
  let metadata := "# " ++ title ++ "\n\n"
  let metadata := metadata ++ (if subtitle ≠ "" then "## " ++ subtitle ++ "\n\n" else "")
  let metadata := metadata ++ "**" ++ date ++ "**\n\n"
  let metadata := metadata ++ "**Likes:** " ++ pyValStr like_count ++ "\n\n"
  metadata ++ content

/-- The selector results extract_post_data reads off a parsed post page: for
each CSS selector, the text of the first matching element, or none when no
element matches (for available-content, the HTML of the element). -/
structure Page where
  title_element : Option String
  subtitle_element : Option String
  date_element : Option String
  ld_json : Option String
  like_count_label : Option String
  available_content : Option String

/-- The post preload fields read by extract_post_data_from_preloads:
post.title, post.description, post.reactions with the heart key,
post.post_date and post.body_html. -/
structure PostPreload where
  title : String
  description : String
  heart : Int
  post_date : String
  body_html : String

/-- External collaborators and run configuration, passed explicitly: the
offline flag, the html2text conversion, and for the image pipeline the
download success oracle, the md5-hexdigest and content-type-extension oracles
of the hash fallback, the resolved output directory and post slug of the
run, and the os.path.relpath computation against the markdown directory. -/
structure ScrapeEnv where
  offline : Bool
  html_to_md : String → String
  dlOk : String → Bool
  hashHex : String → String
  headExt : String → String
  output_directory : String
  post_slug : String
  relpathOf : String → String

/-- Lookup of a key in a decoded JSON object (Python dict indexing). -/
def jsonLookup (kvs : List (String × Json)) (k : String) : Option Json :=
  (kvs.find? (fun kv => kv.1 == k)).map (fun kv => kv.2)

/-- The record of post fields produced by either extraction path (the fields
the per-post PostRecord stores, plus the combined markdown). -/
structure Extracted where
  title : String
  subtitle : String
  like_count : PyVal
  date : String
  md_content : String
deriving Repr, DecidableEq

/-- Model of BaseSubstackScraper.extract_post_data (source lines 321 to 372),
the raw-markup tiered path: stripped title text or Untitled; stripped subtitle
or empty; date from the date selector, else from the JSON-LD datePublished
reformatted via fromisoformat (with Z replaced by +00:00) and
strftime("%b %d, %Y"), decoding errors silently ignored, else the literal
Date not found; like count only when the stripped label is all digits, else
the string 0; body markdown from the available-content container or empty. -/
def extract_post_data (env : ScrapeEnv) (soup : Page) : Extracted :=
  let title := match soup.title_element with
    | some t => pyStrip t
    | none => "Untitled"
  let subtitle := match soup.subtitle_element with
    | some t => pyStrip t
    | none => ""
  let date1 : String := match soup.date_element with
    | some t => if pyStrip t ≠ "" then pyStrip t else ""
    | none => ""
  let date2 : String :=
    if date1 ≠ "" then date1
    else match soup.ld_json with
      | none => ""
      | some sc =>
        match json_loads sc with
        | .error _ => ""
        | .ok (Json.obj kvs) =>
          match jsonLookup kvs "datePublished" with
          | some (Json.str date_str) =>
            match fromisoformat (pyReplace date_str "Z" "+00:00") with
            | some (y, mo, d) => strftime_b_d_Y y mo d
            | none => ""
          | _ => ""
        | .ok _ => ""
  let date := if date2 ≠ "" then date2 else "Date not found"
  let like_count : PyVal := match soup.like_count_label with
    | some t => if isDigitStr (pyStrip t) then PyVal.str (pyStrip t) else PyVal.str "0"
    | none => PyVal.str "0"
  let content_html := match soup.available_content with
    | some h => h
    | none => ""
  let md := env.html_to_md content_html
  { title := title, subtitle := subtitle, like_count := like_count, date := date,
    md_content := combine_metadata_and_content title subtitle date like_count md }

/-- Model of BaseSubstackScraper.extract_post_data_from_preloads (source lines
374 to 393): fields are read directly from the preload mapping, the ISO post
date goes through strptime (whose failure raises ValueError) and
strftime("%b %d, %Y"), and the heart reaction count is passed through as the
JSON number it is. -/
def extract_post_data_from_preloads (env : ScrapeEnv) (p : PostPreload) :
    Except PyErr Extracted :=
  let title := p.title
  let subtitle := p.description
  let like_count := PyVal.int p.heart
  match strptimeMs p.post_date with
  | none => .error .valueError
  | some (y, mo, d) =>
    let date := strftime_b_d_Y y mo d
    let md := env.html_to_md p.body_html
    .ok { title := title, subtitle := subtitle, like_count := like_count, date := date,
          md_content := combine_metadata_and_content title subtitle date like_count md }

/-- Modelled from the spec: the post page that the publication server renders
for a given preload payload, which is not part of this repository. Following
sections 4.3 and 8 of the spec, the rendered page presents exactly the
preload data: the title heading and subtitle carry the preload title and
description, the date element shows the post date in the single display
format, the reaction label shows the heart count as a decimal string, and the
available-content container holds the body HTML. No JSON-LD block is needed
since the date element is present. -/
def renderPage (p : PostPreload) : Page :=
  { title_element := some p.title
    subtitle_element := some p.description
    date_element := some (match strptimeMs p.post_date with
      | some (y, mo, d) => strftime_b_d_Y y mo d
      | none => "")
    ld_json := none
    like_count_label := some (intStr p.heart)
    available_content := some p.body_html }

/-- A concrete environment for the closed evaluations: online run, identity
markdown conversion, always-successful downloads, fixed oracle outputs. -/
def env0 : ScrapeEnv :=
  { offline := false, html_to_md := id, dlOk := fun _ => true,
    hashHex := fun _ => "cafebabe", headExt := fun _ => ".jpg",
    output_directory := "thefitzwilliam.substack.com", post_slug := "a-post",
    relpathOf := fun p => p }

/-- A concrete preload payload with five heart reactions. -/
def c2Preload : PostPreload :=
  { title := "T", description := "S", heart := 5,
    post_date := "2025-10-01T14:43:48.389Z", body_html := "<p>B</p>" }

/-- The record produced by the online path under the hypotheses of the
amended claim C2, with the like count abstracted. -/
def parityRecord (env : ScrapeEnv) (p : PostPreload) (y mo d : Nat) (lc : PyVal) :
    Extracted :=
  { title := p.title
    subtitle := p.description
    like_count := lc
    date := strftime_b_d_Y y mo d
    md_content := combine_metadata_and_content p.title p.description
      (strftime_b_d_Y y mo d) lc (env.html_to_md p.body_html) }

/-- The filesystem-unsafe characters removed by the re.sub in
sanitize_image_filename. -/
def invalidFileChar (c : Char) : Bool :=
  c == '<' || c == '>' || c == ':' || c == '"' || c == '/' || c == '\\' ||
  c == '|' || c == '?' || c == '*'

/-- The last component of a Python split on slash (split always returns a
non-empty list, so the -1 index is its last element). -/
def lastSlashComponent (s : String) : String :=
  (pySplit s "/").getLastD ""

/-- Model of sanitize_image_filename (source lines 63 to 82). For a CDN URL
the original upstream URL is taken as the part after the first occurrence of
the percent-encoded marker; indexing [1] into the split raises IndexError
when the marker is absent. The md5-hash fallback consults the hashHex and
headExt oracles of the environment (requests.head and mimetypes are external
collaborators). -/
def sanitize_image_filename (env : ScrapeEnv) (url : String) : Except PyErr String :=
  let step1 : Except PyErr String :=
    if containsSubL "substackcdn.com".data url.data then
      match (pySplit url "/https%3A%2F%2F").get? 1 with
      | none => .error .indexError
      | some part => .ok (lastSlashComponent (pyUnquote part))
    else .ok (lastSlashComponent url)
  match step1 with
  | .error e => .error e
  | .ok fn0 =>
    let fn : String := ⟨fn0.data.filter (fun c => !(invalidFileChar c))⟩
    if 100 < fn.data.length ∨ fn.data.isEmpty then
      .ok (env.hashHex url ++ env.headExt url)
    else .ok fn

/-- The on-disk location of a downloaded image: os.path.join of the output
directory and the image path template, instantiated at its default
p/$post_slug/images/$image_filename. -/
def image_save_path (env : ScrapeEnv) (filename : String) : String :=
  env.output_directory ++ "/p/" ++ env.post_slug ++ "/images/" ++ filename

/-- The literal part of the image regex of process_markdown_images:
an opening parenthesis followed by the CDN fetch URL head. -/
def cdnPat : List Char := "(https://substackcdn.com/image/fetch/".data

/-- The character class of the regex body: anything except whitespace and a
closing parenthesis. -/
def imgUrlChar (c : Char) : Bool :=
  !(isPyWs c) && c != ')'

/-- One attempt of the image regex at the current position: the literal head,
then a maximal non-empty run of body characters, then the closing
parenthesis. Returns the full matched span and the remainder. Backtracking
cannot help the regex here because shortening the greedy run only exposes
another body character, never the required closing parenthesis. -/
def imageMatchAt (cs : List Char) : Option (List Char × List Char) :=
  if cdnPat.isPrefixOf cs then
    let rest := cs.drop cdnPat.length
    let run := rest.takeWhile imgUrlChar
    match rest.dropWhile imgUrlChar with
    | ')' :: tail => if run.isEmpty then none else some (cdnPat ++ run ++ [')'], tail)
    | _ => none
  else none

/-- A piece of the markdown body: literal text between matches, or one
matched parenthesized CDN image reference. -/
inductive MdTok where
  | text (cs : List Char)
  | ref (cs : List Char)
deriving Repr, DecidableEq

/-- Scanner equivalent of re.finditer for the image regex: try a match at
every position from left to right, non-overlapping. Fuelled by the input
length, which suffices because every step consumes at least one character. -/
def tokenizeImgs : Nat → List Char → List Char → List MdTok
  | 0, cs, acc => [MdTok.text (acc.reverse ++ cs)]
  | _ + 1, [], acc => [MdTok.text acc.reverse]
  | fuel + 1, c :: cs, acc =>
    match imageMatchAt (c :: cs) with
    | some (m, rest) => MdTok.text acc.reverse :: MdTok.ref m :: tokenizeImgs fuel rest []
    | none => tokenizeImgs fuel cs (c :: acc)

/-- A parenthesis character, for the Python strip("()"). -/
def parenChar (c : Char) : Bool :=
  c == '(' || c == ')'

/-- Model of match.group(0).strip("()"): drop parenthesis characters from
both ends of the matched span. -/
def stripParens (s : String) : String :=
  ⟨((s.data.dropWhile parenChar).reverse.dropWhile parenChar).reverse⟩

/-- The observable image-pipeline state: the set of files present in the
output tree (as their paths) and the ledger of download calls issued (as the
requested URLs, in order). -/
structure ImgState where
  files : List String
  calls : List String
deriving Repr, DecidableEq

/-- Model of the loop of process_markdown_images (source lines 743 to 775)
over the tokenized body. Text pieces are copied to the output buffer. For a
matched reference the span is stripped of parentheses to the URL, a filename
is derived (an exception propagates, abandoning the buffer but keeping the
filesystem state), and if the file is absent and the run is not offline,
download_image is called: on success (dlOk) it writes the file, on failure it
leaves no file; either way the call is recorded. The reference is rewritten
to the os.path.relpath of the save path against the markdown directory.
ref_step is the filesystem/ledger effect of one matched reference (source
lines 756 to 767), split out of the loop body. -/
def ref_step (env : ScrapeEnv) (url filename : String) (s : ImgState) : ImgState :=
  if !(s.files.contains (image_save_path env filename)) && !env.offline then
    if env.dlOk url then
      { files := s.files ++ [image_save_path env filename], calls := s.calls ++ [url] }
    else
      { files := s.files, calls := s.calls ++ [url] }
  else s

def process_toks (env : ScrapeEnv) : List MdTok → ImgState → List Char →
    Except PyErr (List Char) × ImgState
  | [], s, out => (Except.ok out, s)
  | MdTok.text t :: rest, s, out => process_toks env rest s (out ++ t)
  | MdTok.ref m :: rest, s, out =>
    let url : String := stripParens ⟨m⟩
    match sanitize_image_filename env url with
    | .error e => (Except.error e, s)
    | .ok filename =>
      process_toks env rest (ref_step env url filename s)
        (out ++ ('(' :: (env.relpathOf (image_save_path env filename)).data ++ [')']))

/-- Model of BaseSubstackScraper.process_markdown_images: tokenize the body
with the image regex and process the pieces, returning the rewritten body (or
the propagated exception) together with the final filesystem state and
download ledger. -/
def process_markdown_images (env : ScrapeEnv) (md : String) (s : ImgState) :
    Except PyErr String × ImgState :=
  let r := process_toks env (tokenizeImgs md.data.length md.data []) s []
  (r.1.map (fun l => (⟨l⟩ : String)), r.2)

/-- The raw characters covered by a token. -/
def tokContent : MdTok → List Char
  | .text cs => cs
  | .ref cs => cs

/-- Whether every matched reference of a token list derives a filename
without raising. -/
def refsOkB (env : ScrapeEnv) (toks : List MdTok) : Bool :=
  toks.all (fun t => match t with
    | .ref m => (sanitize_image_filename env (stripParens ⟨m⟩)).isOk
    | .text _ => true)

/-- The body that process_markdown_images writes when no reference raises:
text pieces verbatim and in order, each matched span replaced by the
parenthesized relative path of its resolved image file. -/
def renderedImgs (env : ScrapeEnv) : List MdTok → List Char
  | [] => []
  | .text t :: rest => t ++ renderedImgs env rest
  | .ref m :: rest =>
    (match sanitize_image_filename env (stripParens ⟨m⟩) with
     | .ok fn => '(' :: ((env.relpathOf (image_save_path env fn)).data ++ [')'])
     | .error _ => []) ++ renderedImgs env rest

/-- A concrete body with text around one well-formed CDN reference. -/
def c10md : String :=
  "A(https://substackcdn.com/image/fetch/x/https%3A%2F%2Fe.com%2Fi.png)B"

/-- The resolved save path of a URL, when its filename derivation succeeds. -/
def uPath? (env : ScrapeEnv) (u : String) : Option String :=
  match sanitize_image_filename env u with
  | .ok fn => some (image_save_path env fn)
  | .error _ => none

/-- An environment whose downloads always fail. -/
def envFail : ScrapeEnv :=
  { env0 with dlOk := fun _ => false }

/-- A CDN fetch URL carrying the percent-encoded upstream address. -/
def c7url : String :=
  "https://substackcdn.com/image/fetch/w_100/https%3A%2F%2Fexample.com%2Fpic.png"

/-- A markdown body embedding that URL as an image reference. -/
def c7md : String :=
  "![](https://substackcdn.com/image/fetch/w_100/https%3A%2F%2Fexample.com%2Fpic.png)"

/-- C4: for every script text that begins with the preload marker, extraction
slices the text between the first opening parenthesis (the marker itself
contains none, so this is also the first one after the marker) and the last
closing parenthesis, JSON-decodes that slice to a string, and JSON-decodes that
string again; in particular on the script text
window._preloads = JSON.parse("{\"a\":1}") it yields the mapping with "a"
bound to 1. -/
theorem claim_C4 :
    (∀ (t : String) (j : Json),
        "window._preloads".data.isPrefixOf (pyStrip t).data = true →
        json_loads_twice (preload_slice (pyStrip t)) = Except.ok j →
        j.truthy = true →
        get_window_preloads [t] = Except.ok j)
    ∧ get_window_preloads ["window._preloads = JSON.parse(\"\x7b\\\"a\\\":1\x7d\")"]
        = Except.ok (Json.obj [("a", Json.num 1)]) := by
  constructor
  · intro t j h1 h2 h3
    simp only [get_window_preloads, get_window_preloads_loop, h1, if_true, h2, h3]
  · rfl

/-- Witness for C4 at the concrete script text of the claim. -/
theorem claim_C4_witness :
    ("window._preloads".data.isPrefixOf
        (pyStrip "window._preloads = JSON.parse(\"\x7b\\\"a\\\":1\x7d\")").data = true)
    ∧ (json_loads_twice
        (preload_slice (pyStrip "window._preloads = JSON.parse(\"\x7b\\\"a\\\":1\x7d\")"))
        = Except.ok (Json.obj [("a", Json.num 1)]))
    ∧ ((Json.obj [("a", Json.num 1)]).truthy = true)
    ∧ get_window_preloads ["window._preloads = JSON.parse(\"\x7b\\\"a\\\":1\x7d\")"]
        = Except.ok (Json.obj [("a", Json.num 1)]) :=
  ⟨rfl, rfl, rfl, claim_C4.1 _ _ rfl rfl rfl⟩

/-- C3: on a page with no script whose text begins with the preload marker,
get_window_preloads does NOT fail with an assertion error naming the requested
URL: the assert message f-string references the variable url, which is not in
scope in the function (its parameters are self and soup), so evaluating the
message raises NameError. Evaluated here at a concrete page with two
non-qualifying scripts. -/
theorem claim_C3 :
    get_window_preloads ["var x = 1;", "  console.log(2) "]
      = Except.error (PyErr.nameError "url") := rfl

/-- The accumulating loop computes the offset plus the sum of the counts. -/
theorem count_comments_fold_eq (l : List Comment) :
    ∀ res : Nat, count_comments_fold res l = res + (l.map count_comments_inner).sum := by
  induction l with
  | nil => intro res; simp [count_comments_fold]
  | cons c rest ih =>
    intro res
    simp only [count_comments_fold, ih, List.map_cons, List.sum_cons]
    omega

/-- C8: the comment count satisfies the tree recursion, namely the count of a
node is 1 plus the sum of the counts of its children; the count of a comments
payload is the sum of the counts of its top-level comments; and the example
tree (a root with two children, one of which has one grandchild) counts 4. -/
theorem claim_C8 :
    (∀ c : Comment,
        count_comments_inner c = 1 + (c.children.map count_comments_inner).sum)
    ∧ (∀ p : CommentsPreloads,
        count_comments p = (p.initialComments.map count_comments_inner).sum)
    ∧ count_comments
        ⟨[Comment.node [Comment.node [Comment.node []], Comment.node []]]⟩ = 4 := by
  refine ⟨fun c => ?_, fun p => ?_, rfl⟩
  · cases c with
    | node children => simp [count_comments_inner, count_comments_fold_eq, Comment.children]
  · simp [count_comments, count_comments_fold_eq]

/-- C1 (code bug): the merge drops a persisted record whose id does not occur
in the new batch. With the persisted index holding the record with id 1 and
the batch holding only the record with id 2, the claim (and the comment on
source line 528) requires both records in the result, but the filter on source
line 530 iterates over the new batch instead of the loaded data, so the result
holds only the batch record. -/
theorem claim_C1 :
    save_posts_data_json (some [⟨1, "persisted, id not in batch"⟩]) [⟨2, "new"⟩]
      = [⟨2, "new"⟩] := by decide

/-- The buggy filter of save_posts_data_json always yields the empty list:
every batch record has its own id in new_post_ids. -/
theorem save_filter_self_eq_nil (batch : List PostRec) :
    batch.filter (fun p => !((batch.map (fun p => p.id)).contains p.id)) = [] := by
  rw [List.filter_eq_nil_iff]
  intro p hp
  simp only [Bool.not_eq_true', Bool.not_eq_false]
  exact List.elem_iff.mpr (List.mem_map_of_mem (fun p => p.id) hp)

/-- When the index file exists the merge result is just the sorted batch:
the persisted records are ignored because of the bug of claim_C1. -/
theorem save_posts_some_eq (ex batch : List PostRec) :
    save_posts_data_json (some ex) batch = List.insertionSort postLeDesc batch := by
  show List.insertionSort postLeDesc
      (batch.filter (fun p => !((batch.map (fun p => p.id)).contains p.id)) ++ batch)
    = List.insertionSort postLeDesc batch
  rw [save_filter_self_eq_nil, List.nil_append]

/-- C5: merging the same batch twice yields the same index as merging it once
(the second call reads back the index written by the first call). In this code
the property holds degenerately: because of the bug shown in claim_C1 the
merge ignores the persisted records entirely, so both sides equal the sorted
batch. -/
theorem claim_C5 (existing : Option (List PostRec)) (batch : List PostRec) :
    save_posts_data_json (some (save_posts_data_json existing batch)) batch
      = save_posts_data_json existing batch := by
  cases existing with
  | none => rw [save_posts_some_eq]; rfl
  | some ex => rw [save_posts_some_eq, save_posts_some_eq]

/-- The output of the merge is sorted by descending id. -/
theorem save_posts_sorted (existing : Option (List PostRec)) (batch : List PostRec) :
    List.Sorted postLeDesc (save_posts_data_json existing batch) := by
  cases existing with
  | none => exact List.sorted_insertionSort postLeDesc _
  | some ex => exact List.sorted_insertionSort postLeDesc _

/-- C6: in every index produced by the merge step, each adjacent pair of
records has a first id at least the second id. -/
theorem claim_C6 (existing : Option (List PostRec)) (batch : List PostRec)
    (i : Nat) (h : i + 1 < (save_posts_data_json existing batch).length) :
    ((save_posts_data_json existing batch).get ⟨i + 1, h⟩).id
      ≤ ((save_posts_data_json existing batch).get ⟨i, Nat.lt_of_succ_lt h⟩).id :=
  (save_posts_sorted existing batch).rel_get_of_lt (Nat.lt_succ_self i)

/-- Witness for C6: a two-record batch merged with no existing file, at the
adjacent pair of positions 0 and 1. -/
theorem claim_C6_witness :
    (0 + 1 < (save_posts_data_json none [⟨1, "a"⟩, ⟨2, "b"⟩]).length)
    ∧ ((save_posts_data_json none [⟨1, "a"⟩, ⟨2, "b"⟩]).get ⟨0 + 1, by decide⟩).id
        ≤ ((save_posts_data_json none [⟨1, "a"⟩, ⟨2, "b"⟩]).get ⟨0, by decide⟩).id :=
  ⟨by decide, claim_C6 none [⟨1, "a"⟩, ⟨2, "b"⟩] 0 (by decide)⟩

/-- C2 fails on this code: feeding the same preload through the online path
(extract_post_data over the page it renders) and the offline path
(extract_post_data_from_preloads) gives records that agree on title, subtitle
and date but NOT on like_count, because the online path returns the all-digit
label text as a Python str while the offline path returns the JSON number
from post.reactions, and the string "5" is not the int 5. -/
theorem claim_C2_counterexample :
    extract_post_data_from_preloads env0 c2Preload
      ≠ Except.ok (extract_post_data env0 (renderPage c2Preload))
    ∧ (extract_post_data env0 (renderPage c2Preload)).like_count = PyVal.str "5"
    ∧ extract_post_data_from_preloads env0 c2Preload
        = Except.ok { extract_post_data env0 (renderPage c2Preload) with
                      like_count := PyVal.int 5 } := by
  refine ⟨by decide, rfl, rfl⟩

/-- Characters 48 through 57 are the decimal digits. -/
theorem digitChar_isDigit (k : Nat) (h : k < 10) : (Char.ofNat (48 + k)).isDigit = true := by
  interval_cases k <;> decide

/-- Every character emitted by natDigitsAux beyond the accumulator is a digit. -/
theorem mem_natDigitsAux : ∀ (fuel n : Nat) (acc : List Char) (c : Char),
    c ∈ natDigitsAux fuel n acc → c ∈ acc ∨ c.isDigit = true := by
  intro fuel
  induction fuel with
  | zero => intro n acc c h; exact Or.inl h
  | succ f ih =>
    intro n acc c h
    unfold natDigitsAux at h
    by_cases hn : n < 10
    · rw [if_pos hn] at h
      rcases List.mem_cons.mp h with he | ha
      · exact Or.inr (he ▸ digitChar_isDigit n hn)
      · exact Or.inl ha
    · rw [if_neg hn] at h
      rcases ih (n / 10) _ c h with ha | hd
      · rcases List.mem_cons.mp ha with he | ha2
        · exact Or.inr (he ▸ digitChar_isDigit (n % 10) (Nat.mod_lt n (by norm_num)))
        · exact Or.inl ha2
      · exact Or.inr hd

/-- natDigitsAux can only return an empty list when given an empty accumulator. -/
theorem natDigitsAux_eq_nil : ∀ (fuel n : Nat) (acc : List Char),
    natDigitsAux fuel n acc = [] → acc = [] := by
  intro fuel
  induction fuel with
  | zero => intro n acc h; exact h
  | succ f ih =>
    intro n acc h
    unfold natDigitsAux at h
    by_cases hn : n < 10
    · rw [if_pos hn] at h; exact absurd h (List.cons_ne_nil _ _)
    · rw [if_neg hn] at h
      exact absurd (ih (n / 10) _ h) (List.cons_ne_nil _ _)

/-- The decimal rendering of a natural number is non-empty. -/
theorem natDigitsStr_ne_nil (n : Nat) : (natDigitsStr n).data ≠ [] := by
  show natDigitsAux (n + 1) n [] ≠ []
  unfold natDigitsAux
  by_cases hn : n < 10
  · rw [if_pos hn]; exact List.cons_ne_nil _ _
  · rw [if_neg hn]
    intro h
    exact List.cons_ne_nil _ _ (natDigitsAux_eq_nil n (n / 10) _ h)

/-- Every character of the decimal rendering of a natural number is a digit. -/
theorem natDigitsStr_all_digits (n : Nat) (c : Char) (h : c ∈ (natDigitsStr n).data) :
    c.isDigit = true := by
  rcases mem_natDigitsAux (n + 1) n [] c h with ha | hd
  · exact absurd ha (List.not_mem_nil c)
  · exact hd

/-- A digit character is not Python whitespace. -/
theorem isDigit_not_pyWs (c : Char) (h : c.isDigit = true) : isPyWs c = false := by
  by_contra hw
  rw [Bool.not_eq_false] at hw
  unfold isPyWs at hw
  simp only [Bool.or_eq_true, beq_iff_eq] at hw
  rcases hw with ((((rfl | rfl) | rfl) | rfl) | rfl) | rfl <;> exact absurd h (by decide)

/-- dropWhile is the identity when the head fails the predicate. -/
theorem dropWhile_eq_self_head (p : Char → Bool) (l : List Char)
    (h : ∀ c, l.head? = some c → p c = false) : l.dropWhile p = l := by
  cases l with
  | nil => rfl
  | cons a t =>
    rw [List.dropWhile_cons, h a rfl]
    simp

/-- Python strip is the identity on a list whose first and last characters
are not whitespace. -/
theorem pyStripL_eq_self (cs : List Char)
    (hh : ∀ c, cs.head? = some c → isPyWs c = false)
    (hl : ∀ c, cs.getLast? = some c → isPyWs c = false) :
    pyStripL cs = cs := by
  unfold pyStripL
  rw [dropWhile_eq_self_head _ _ hh]
  rw [dropWhile_eq_self_head _ _ (fun c h => hl c (by rwa [List.head?_reverse] at h))]
  exact List.reverse_reverse cs

/-- Python strip is the identity on a string whose first and last characters
are not whitespace. -/
theorem pyStrip_eq_self (s : String)
    (hh : ∀ c, s.data.head? = some c → isPyWs c = false)
    (hl : ∀ c, s.data.getLast? = some c → isPyWs c = false) :
    pyStrip s = s := by
  unfold pyStrip
  rw [pyStripL_eq_self s.data hh hl]

/-- A string with a head character is not empty. -/
theorem ne_empty_of_head {s : String} {c : Char} (h : s.data.head? = some c) : s ≠ "" := by
  intro he
  rw [he] at h
  exact Option.noConfusion h

/-- String append acts as list append on the character data. -/
theorem string_data_append (a b : String) : (a ++ b).data = a.data ++ b.data := by
  cases a; cases b; rfl

/-- The character data of the display date, split at the appends. -/
theorem strftime_data (y mo d : Nat) :
    (strftime_b_d_Y y mo d).data
      = (month_abbr mo).data
          ++ (" ".data ++ ((pad2 d).data ++ (", ".data ++ (natDigitsStr y).data))) := by
  unfold strftime_b_d_Y
  rw [string_data_append, string_data_append, string_data_append, string_data_append]
  simp [List.append_assoc]

/-- For a valid month the display date starts with a letter, not whitespace. -/
theorem strftime_head (y mo d : Nat) (h1 : 1 ≤ mo) (h2 : mo ≤ 12) :
    ∃ c, (strftime_b_d_Y y mo d).data.head? = some c ∧ isPyWs c = false := by
  rw [strftime_data]
  interval_cases mo <;> exact ⟨_, rfl, rfl⟩

/-- The display date ends with a year digit, not whitespace. -/
theorem strftime_last (y mo d : Nat) :
    ∃ c, (strftime_b_d_Y y mo d).data.getLast? = some c ∧ isPyWs c = false := by
  obtain ⟨c, hc⟩ := Option.isSome_iff_exists.mp
    (List.getLast?_isSome.mpr (natDigitsStr_ne_nil y))
  refine ⟨c, ?_, ?_⟩
  · rw [strftime_data, List.getLast?_append, List.getLast?_append, List.getLast?_append,
      List.getLast?_append, hc]
    rfl
  · obtain ⟨hne, he⟩ := List.mem_getLast?_eq_getLast (Option.mem_def.mpr hc)
    exact isDigit_not_pyWs c
      (natDigitsStr_all_digits y c (he ▸ List.getLast_mem hne))

/-- Python strip is the identity on the display date for a valid month. -/
theorem pyStrip_strftime (y mo d : Nat) (h1 : 1 ≤ mo) (h2 : mo ≤ 12) :
    pyStrip (strftime_b_d_Y y mo d) = strftime_b_d_Y y mo d := by
  obtain ⟨ch, hch, hwh⟩ := strftime_head y mo d h1 h2
  obtain ⟨cl, hcl, hwl⟩ := strftime_last y mo d
  exact pyStrip_eq_self _
    (fun c hc => by rw [hch] at hc; cases hc; exact hwh)
    (fun c hc => by rw [hcl] at hc; cases hc; exact hwl)

/-- The display date is a non-empty string for a valid month. -/
theorem strftime_ne_empty (y mo d : Nat) (h1 : 1 ≤ mo) (h2 : mo ≤ 12) :
    strftime_b_d_Y y mo d ≠ "" := by
  obtain ⟨ch, hch, _⟩ := strftime_head y mo d h1 h2
  exact ne_empty_of_head hch

/-- A successful strptime implies the month and day were in range. -/
theorem strptimeMs_range {s : String} {y mo d : Nat}
    (h : strptimeMs s = some (y, mo, d)) :
    1 ≤ mo ∧ mo ≤ 12 ∧ 1 ≤ d ∧ d ≤ 31 := by
  unfold strptimeMs at h
  cases hp : strptimeParts s with
  | none => rw [hp] at h; exact absurd h (by simp)
  | some t =>
    obtain ⟨y1, mo1, d1, hh1, mi1, ss1⟩ := t
    rw [hp] at h
    dsimp only at h
    split_ifs at h with hc
    · simp only [Option.some.injEq, Prod.mk.injEq] at h
      obtain ⟨rfl, rfl, rfl⟩ := h
      exact ⟨hc.1, hc.2.1, hc.2.2.1, hc.2.2.2.1⟩

/-- Python strip is the identity on a non-negative int rendered as a string,
and that rendering is all digits. -/
theorem intStr_nonneg_facts (n : Int) (h : 0 ≤ n) :
    intStr n = natDigitsStr n.toNat
    ∧ pyStrip (intStr n) = intStr n
    ∧ isDigitStr (intStr n) = true := by
  have he : intStr n = natDigitsStr n.toNat := by
    unfold intStr
    rw [if_neg (Int.not_lt.mpr h)]
  refine ⟨he, ?_, ?_⟩
  · rw [he]
    refine pyStrip_eq_self _ (fun c hc => ?_) (fun c hc => ?_)
    · exact isDigit_not_pyWs c (natDigitsStr_all_digits _ c
        (List.mem_of_mem_head? (Option.mem_def.mpr hc)))
    · obtain ⟨hne, heq⟩ := List.mem_getLast?_eq_getLast (Option.mem_def.mpr hc)
      exact isDigit_not_pyWs c (natDigitsStr_all_digits _ c (heq ▸ List.getLast_mem hne))
  · rw [he]
    simp only [isDigitStr, Bool.and_eq_true, Bool.not_eq_true', List.all_eq_true]
    constructor
    · cases hh : (natDigitsStr n.toNat).data with
      | nil => exact absurd hh (natDigitsStr_ne_nil _)
      | cons a t => rfl
    · intro c hc
      exact natDigitsStr_all_digits _ c hc

/-- C2 amended: with the display date derivable from the preload post date,
the preload title and description already stripped, and a non-negative heart
count, the two paths agree on title, subtitle, date and markdown, and the
like_count fields hold the same count in different representations: the
offline path stores the JSON number, the online path stores its decimal
string rendering (so the records as wholes are NOT identical). -/
theorem claim_C2_amended (env : ScrapeEnv) (p : PostPreload) (y mo d : Nat)
    (hdate : strptimeMs p.post_date = some (y, mo, d))
    (htitle : pyStrip p.title = p.title)
    (hdesc : pyStrip p.description = p.description)
    (hheart : 0 ≤ p.heart) :
    extract_post_data_from_preloads env p
      = Except.ok { extract_post_data env (renderPage p) with
                    like_count := PyVal.int p.heart }
    ∧ (extract_post_data env (renderPage p)).like_count
        = PyVal.str (intStr p.heart) := by
  obtain ⟨hm1, hm2, _, _⟩ := strptimeMs_range hdate
  obtain ⟨hie, his, hid⟩ := intStr_nonneg_facts p.heart hheart
  have hstrip := pyStrip_strftime y mo d hm1 hm2
  have hne := strftime_ne_empty y mo d hm1 hm2
  have honline : extract_post_data env (renderPage p)
      = parityRecord env p y mo d (PyVal.str (intStr p.heart)) := by
    unfold parityRecord
    simp only [extract_post_data, renderPage, hdate, htitle, hdesc, hstrip, his, hid,
      ne_eq, not_false_iff, if_true]
    simp [hne]
  have hoffline : extract_post_data_from_preloads env p
      = Except.ok (parityRecord env p y mo d (PyVal.int p.heart)) := by
    unfold parityRecord
    simp only [extract_post_data_from_preloads, hdate]
  have hcomb : combine_metadata_and_content p.title p.description
        (strftime_b_d_Y y mo d) (PyVal.str (intStr p.heart)) (env.html_to_md p.body_html)
      = combine_metadata_and_content p.title p.description
        (strftime_b_d_Y y mo d) (PyVal.int p.heart) (env.html_to_md p.body_html) := by
    unfold combine_metadata_and_content
    simp [pyValStr, hie]
  rw [honline, hoffline]
  refine ⟨?_, rfl⟩
  unfold parityRecord
  simp [hcomb]

/-- Witness for the amended claim C2 at the concrete preload payload. -/
theorem claim_C2_witness :
    strptimeMs c2Preload.post_date = some (2025, 10, 1)
    ∧ pyStrip c2Preload.title = c2Preload.title
    ∧ pyStrip c2Preload.description = c2Preload.description
    ∧ 0 ≤ c2Preload.heart
    ∧ (extract_post_data_from_preloads env0 c2Preload
        = Except.ok { extract_post_data env0 (renderPage c2Preload) with
                      like_count := PyVal.int c2Preload.heart }
      ∧ (extract_post_data env0 (renderPage c2Preload)).like_count
          = PyVal.str (intStr c2Preload.heart)) :=
  ⟨rfl, rfl, rfl, by decide,
    claim_C2_amended env0 c2Preload 2025 10 1 rfl rfl rfl (by decide)⟩

/-- With no occurrence of the separator, the split worker returns a single
chunk: the accumulator followed by the rest. -/
theorem splitOnSubAux_not_contains (sep : List Char) :
    ∀ (fuel : Nat) (cs acc : List Char), containsSubL sep cs = false →
      splitOnSubAux sep fuel cs acc = [acc.reverse ++ cs] := by
  intro fuel
  induction fuel with
  | zero => intro cs acc h; rfl
  | succ f ih =>
    intro cs acc h
    cases cs with
    | nil => simp [splitOnSubAux]
    | cons c rest =>
      unfold containsSubL at h
      rw [Bool.or_eq_false_iff] at h
      unfold splitOnSubAux
      rw [h.1]
      simp only [Bool.false_eq_true, if_false]
      rw [ih rest (c :: acc) h.2]
      simp

/-- Python split on a separator that does not occur returns the whole string. -/
theorem pySplit_not_contains (s sep : String) (h : containsSubL sep.data s.data = false) :
    pySplit s sep = [s] := by
  unfold pySplit
  rw [splitOnSubAux_not_contains sep.data s.data.length s.data [] h]
  cases s
  rfl

/-- C9: any URL that mentions the CDN host but lacks the percent-encoded
fetch-proxy marker makes sanitize_image_filename raise IndexError (the [1]
index into a one-element split), and the branch is reachable from
process_markdown_images, shown on a body holding one such CDN reference. -/
theorem claim_C9 :
    (∀ (env : ScrapeEnv) (url : String),
        containsSubL "substackcdn.com".data url.data = true →
        containsSubL "/https%3A%2F%2F".data url.data = false →
        sanitize_image_filename env url = Except.error PyErr.indexError)
    ∧ (process_markdown_images env0 "(https://substackcdn.com/image/fetch/b.png)"
          ⟨[], []⟩).1 = Except.error PyErr.indexError := by
  constructor
  · intro env url h1 h2
    have hs : pySplit url "/https%3A%2F%2F" = [url] := pySplit_not_contains url _ h2
    simp only [sanitize_image_filename, h1, if_true, hs]
    rfl
  · rfl

/-- Witness for the universal part of C9 at a concrete proxied URL that lacks
the fetch-proxy marker. -/
theorem claim_C9_witness :
    containsSubL "substackcdn.com".data
        "https://substackcdn.com/image/fetch/a.png".data = true
    ∧ containsSubL "/https%3A%2F%2F".data
        "https://substackcdn.com/image/fetch/a.png".data = false
    ∧ sanitize_image_filename env0 "https://substackcdn.com/image/fetch/a.png"
        = Except.error PyErr.indexError :=
  ⟨rfl, rfl, claim_C9.1 env0 "https://substackcdn.com/image/fetch/a.png" rfl rfl⟩

/-- C10 fails on this code: a matched CDN reference whose URL lacks the
fetch-proxy marker makes the filename derivation raise, so
process_markdown_images returns no body at all and the literal characters X
and Y around the match are not reproduced. -/
theorem claim_C10_counterexample :
    (process_markdown_images env0 "X(https://substackcdn.com/image/fetch/a.png)Y"
        ⟨[], []⟩).1 = Except.error PyErr.indexError := rfl

/-- A successful match splits the input into the matched span and the
remainder, and the remainder is strictly shorter. -/
theorem imageMatchAt_some {cs m rest : List Char}
    (h : imageMatchAt cs = some (m, rest)) :
    m ++ rest = cs ∧ rest.length < cs.length := by
  unfold imageMatchAt at h
  by_cases hp : cdnPat.isPrefixOf cs
  · rw [if_pos hp] at h
    obtain ⟨t, ht⟩ := List.isPrefixOf_iff_prefix.mp hp
    have hd : cs.drop cdnPat.length = t := by
      rw [← ht, List.drop_left]
    rw [hd] at h
    dsimp only at h
    split at h
    next tail heq =>
      split_ifs at h with hrun
      rw [Option.some.injEq, Prod.mk.injEq] at h
      obtain ⟨hm, hrest⟩ := h
      subst hm
      subst hrest
      have htw : List.takeWhile imgUrlChar t ++ ')' :: tail = t := by
        rw [← heq]
        exact List.takeWhile_append_dropWhile imgUrlChar t
      constructor
      · conv_rhs => rw [← ht, ← htw]
        simp [List.append_assoc]
      · have h1 := congrArg List.length ht
        have h2 := congrArg List.length htw
        simp only [List.length_append, List.length_cons] at h1 h2
        have h3 : 0 < cdnPat.length := by decide
        omega
    next x hne =>
      exact absurd h (by simp)
  · rw [if_neg hp] at h
    exact absurd h (by simp)

/-- The tokens of a body cover exactly its characters, in order
(given sufficient fuel). -/
theorem tokenizeImgs_flatten : ∀ (fuel : Nat) (cs acc : List Char), cs.length ≤ fuel →
    ((tokenizeImgs fuel cs acc).map tokContent).flatten = acc.reverse ++ cs := by
  intro fuel
  induction fuel with
  | zero =>
    intro cs acc h
    simp [tokenizeImgs, tokContent]
  | succ f ih =>
    intro cs acc h
    cases cs with
    | nil => simp [tokenizeImgs, tokContent]
    | cons c rest =>
      unfold tokenizeImgs
      cases hm : imageMatchAt (c :: rest) with
      | none =>
        rw [ih rest (c :: acc) (by simp only [List.length_cons] at h; omega)]
        simp
      | some pr =>
        obtain ⟨m, r⟩ := pr
        obtain ⟨hmr, hlen⟩ := imageMatchAt_some hm
        have hr : r.length ≤ f := by
          have hc : (c :: rest).length ≤ f + 1 := h
          simp only [List.length_cons] at hc
          omega
        simp only [List.map_cons, List.flatten_cons, tokContent]
        rw [ih r [] hr]
        simp only [List.reverse_nil, List.nil_append]
        rw [hmr]

/-- With no matched reference among the tokens, the rendered body is just the
concatenation of the text pieces. -/
theorem renderedImgs_no_refs (env : ScrapeEnv) :
    ∀ toks : List MdTok, (∀ m, MdTok.ref m ∉ toks) →
      renderedImgs env toks = (toks.map tokContent).flatten := by
  intro toks
  induction toks with
  | nil => intro h; rfl
  | cons t rest ih =>
    intro h
    cases t with
    | text t2 =>
      simp only [renderedImgs, List.map_cons, List.flatten_cons, tokContent]
      rw [ih (fun m hm => h m (List.mem_cons_of_mem _ hm))]
    | ref m => exact absurd (List.mem_cons_self _ _) (h m)

/-- When every reference of the token list derives a filename successfully,
processing returns the buffer followed by the rendered tokens: text pieces
are reproduced verbatim and in order, only matched spans are replaced. -/
theorem process_toks_ok (env : ScrapeEnv) :
    ∀ (toks : List MdTok) (s : ImgState) (out : List Char),
      refsOkB env toks = true →
      (process_toks env toks s out).1 = Except.ok (out ++ renderedImgs env toks) := by
  intro toks
  induction toks with
  | nil =>
    intro s out h
    simp [process_toks, renderedImgs]
  | cons t rest ih =>
    intro s out h
    simp only [refsOkB, List.all_cons, Bool.and_eq_true] at h
    obtain ⟨h1, h2⟩ := h
    cases t with
    | text t2 =>
      show (process_toks env rest s (out ++ t2)).1 = _
      rw [ih s (out ++ t2) h2]
      simp [renderedImgs]
    | ref m =>
      dsimp only at h1
      cases hs : sanitize_image_filename env (stripParens ⟨m⟩) with
      | error e =>
        rw [hs] at h1
        exact absurd h1 (by simp [Except.isOk, Except.toBool])
      | ok fn =>
        simp only [process_toks, hs]
        rw [ih _ _ h2]
        simp [renderedImgs, hs]

/-- Rebuilding a string from its own characters is the identity. -/
theorem string_mk_data (s : String) : (⟨s.data⟩ : String) = s := by
  cases s
  rfl

/-- C10 amended: whenever every matched CDN URL of the body derives a
filename without raising (in particular whenever each contains the
fetch-proxy marker), process_markdown_images returns the rendered body, which
reproduces every character outside the matched spans verbatim and in order
and replaces only the matched spans; and a body whose tokens contain no
matched reference is returned entirely unchanged. -/
theorem claim_C10_amended (env : ScrapeEnv) (md : String) (s : ImgState)
    (h : refsOkB env (tokenizeImgs md.data.length md.data []) = true) :
    (process_markdown_images env md s).1
      = Except.ok (⟨renderedImgs env (tokenizeImgs md.data.length md.data [])⟩ : String)
    ∧ ((∀ m, MdTok.ref m ∉ tokenizeImgs md.data.length md.data []) →
        (process_markdown_images env md s).1 = Except.ok md) := by
  have hok : (process_markdown_images env md s).1
      = Except.ok (⟨renderedImgs env (tokenizeImgs md.data.length md.data [])⟩ : String) := by
    show (Except.map (fun l => (⟨l⟩ : String))
        (process_toks env (tokenizeImgs md.data.length md.data []) s []).1,
      (process_toks env (tokenizeImgs md.data.length md.data []) s []).2).1
      = _
    rw [process_toks_ok env _ s [] h]
    rfl
  refine ⟨hok, fun hnone => ?_⟩
  rw [hok, renderedImgs_no_refs env _ hnone,
    tokenizeImgs_flatten md.data.length md.data [] (le_refl _)]
  simp [string_mk_data]

/-- Witness for the amended claim C10 at a concrete body whose single
reference carries the fetch-proxy marker. -/
theorem claim_C10_witness :
    refsOkB env0 (tokenizeImgs c10md.data.length c10md.data []) = true
    ∧ (process_markdown_images env0 c10md ⟨[], []⟩).1
        = Except.ok
            (⟨renderedImgs env0 (tokenizeImgs c10md.data.length c10md.data [])⟩ : String) :=
  ⟨rfl, (claim_C10_amended env0 c10md ⟨[], []⟩ rfl).1⟩

/-- A reference step never removes a file. -/
theorem ref_step_files_mono (env : ScrapeEnv) (url fn : String) (s : ImgState)
    (p : String) (h : p ∈ s.files) : p ∈ (ref_step env url fn s).files := by
  unfold ref_step
  split_ifs <;> simp [h]

/-- A reference step for a different URL does not change the count of
download calls for u. -/
theorem ref_step_count_other (env : ScrapeEnv) (url fn : String) (s : ImgState)
    (u : String) (h : url ≠ u) :
    (ref_step env url fn s).calls.count u = s.calls.count u := by
  unfold ref_step
  split_ifs <;> simp [List.count_append, List.count_cons, h]

/-- A reference step whose file is already present does nothing. -/
theorem ref_step_present (env : ScrapeEnv) (url fn : String) (s : ImgState)
    (h : image_save_path env fn ∈ s.files) : ref_step env url fn s = s := by
  have hc : s.files.contains (image_save_path env fn) = true := List.elem_iff.mpr h
  unfold ref_step
  rw [hc]
  simp

/-- A reference step for u itself, when downloads of u succeed: either it
does nothing, or it records exactly one more call for u and the file is
present afterwards. -/
theorem ref_step_self (env : ScrapeEnv) (u fn : String) (s : ImgState)
    (hdl : env.dlOk u = true) :
    ref_step env u fn s = s
    ∨ ((ref_step env u fn s).calls.count u = s.calls.count u + 1
        ∧ image_save_path env fn ∈ (ref_step env u fn s).files) := by
  unfold ref_step
  rw [hdl]
  by_cases hc : (!s.files.contains (image_save_path env fn) && !env.offline) = true
  · rw [if_pos hc, if_pos rfl]
    right
    constructor
    · simp [List.count_append, List.count_cons]
    · simp
  · rw [if_neg hc]
    left
    rfl

/-- When the filename derivation of u fails, processing never issues a
download call for u. -/
theorem process_count_none (env : ScrapeEnv) (u : String)
    (hu : uPath? env u = none) :
    ∀ (toks : List MdTok) (s : ImgState) (out : List Char),
      ((process_toks env toks s out).2).calls.count u = s.calls.count u := by
  intro toks
  induction toks with
  | nil => intro s out; rfl
  | cons t rest ih =>
    intro s out
    cases t with
    | text t2 => exact ih s (out ++ t2)
    | ref m =>
      cases hs : sanitize_image_filename env (stripParens ⟨m⟩) with
      | error e =>
        simp only [process_toks, hs]
      | ok fn =>
        have hne : stripParens ⟨m⟩ ≠ u := by
          intro he
          rw [he] at hs
          unfold uPath? at hu
          rw [hs] at hu
          exact Option.noConfusion hu
        simp only [process_toks, hs]
        rw [ih]
        exact ref_step_count_other env _ fn s u hne

/-- Once the file of u is present, processing issues no further download
call for u, and the file stays present. -/
theorem process_count_present (env : ScrapeEnv) (u p : String)
    (hu : uPath? env u = some p) :
    ∀ (toks : List MdTok) (s : ImgState) (out : List Char), p ∈ s.files →
      ((process_toks env toks s out).2).calls.count u = s.calls.count u
      ∧ p ∈ ((process_toks env toks s out).2).files := by
  intro toks
  induction toks with
  | nil =>
    intro s out hmem
    exact ⟨rfl, hmem⟩
  | cons t rest ih =>
    intro s out hmem
    cases t with
    | text t2 => exact ih s (out ++ t2) hmem
    | ref m =>
      cases hs : sanitize_image_filename env (stripParens ⟨m⟩) with
      | error e =>
        simp only [process_toks, hs]
        exact ⟨trivial, hmem⟩
      | ok fn =>
        simp only [process_toks, hs]
        by_cases hm : stripParens ⟨m⟩ = u
        · rw [hm]
          have hp : image_save_path env fn = p := by
            rw [hm] at hs
            unfold uPath? at hu
            rw [hs] at hu
            exact Option.some.inj hu
          rw [ref_step_present env u fn s (hp ▸ hmem)]
          exact ih s _ hmem
        · obtain ⟨ha, hb⟩ := ih (ref_step env (stripParens ⟨m⟩) fn s)
            (out ++ ('(' :: (env.relpathOf (image_save_path env fn)).data ++ [')']))
            (ref_step_files_mono env _ fn s p hmem)
          refine ⟨?_, hb⟩
          rw [ha]
          exact ref_step_count_other env _ fn s u hm

/-- When downloads of u succeed, one processing pass issues at most one more
download call for u, and if it did issue one the file of u is present
afterwards. -/
theorem process_count_bound (env : ScrapeEnv) (u p : String)
    (hu : uPath? env u = some p) (hdl : env.dlOk u = true) :
    ∀ (toks : List MdTok) (s : ImgState) (out : List Char),
      ((process_toks env toks s out).2).calls.count u ≤ s.calls.count u + 1
      ∧ (((process_toks env toks s out).2).calls.count u = s.calls.count u + 1 →
          p ∈ ((process_toks env toks s out).2).files) := by
  intro toks
  induction toks with
  | nil =>
    intro s out
    constructor
    · exact Nat.le_succ _
    · intro h
      have h2 : List.count u s.calls = List.count u s.calls + 1 := h
      omega
  | cons t rest ih =>
    intro s out
    cases t with
    | text t2 => exact ih s (out ++ t2)
    | ref m =>
      cases hs : sanitize_image_filename env (stripParens ⟨m⟩) with
      | error e =>
        simp only [process_toks, hs]
        constructor
        · exact Nat.le_succ _
        · intro h
          have h2 : List.count u s.calls = List.count u s.calls + 1 := h
          omega
      | ok fn =>
        simp only [process_toks, hs]
        by_cases hm : stripParens ⟨m⟩ = u
        · rw [hm]
          have hp : image_save_path env fn = p := by
            rw [hm] at hs
            unfold uPath? at hu
            rw [hs] at hu
            exact Option.some.inj hu
          rcases ref_step_self env u fn s hdl with heq | ⟨hcnt, hmem⟩
          · rw [heq]
            exact ih s _
          · obtain ⟨ha, hb⟩ := process_count_present env u p hu rest
              (ref_step env u fn s)
              (out ++ ('(' :: (env.relpathOf (image_save_path env fn)).data ++ [')']))
              (hp ▸ hmem)
            rw [ha, hcnt]
            exact ⟨le_refl _, fun _ => hb⟩
        · have hcnt := ref_step_count_other env (stripParens ⟨m⟩) fn s u hm
          obtain ⟨ha, hb⟩ := ih (ref_step env (stripParens ⟨m⟩) fn s)
            (out ++ ('(' :: (env.relpathOf (image_save_path env fn)).data ++ [')']))
          rw [hcnt] at ha hb
          exact ⟨ha, hb⟩

/-- C7 amended: when downloads of the URL succeed (dlOk), processing the same
body twice against the same output tree issues at most one download call for
that URL in total; the file written by the first successful download makes
every later occurrence skip. Without the success assumption the bound fails,
see the counterexample. -/
theorem claim_C7_amended (env : ScrapeEnv) (md : String) (s0 : ImgState) (u : String)
    (hdl : env.dlOk u = true) (hcalls : s0.calls.count u = 0) :
    ((process_markdown_images env md
        (process_markdown_images env md s0).2).2).calls.count u ≤ 1 := by
  have hpm : ∀ s : ImgState, (process_markdown_images env md s).2
      = (process_toks env (tokenizeImgs md.data.length md.data []) s []).2 :=
    fun s => rfl
  rw [hpm, hpm]
  cases hu : uPath? env u with
  | none =>
    rw [process_count_none env u hu, process_count_none env u hu, hcalls]
    exact Nat.zero_le 1
  | some p =>
    obtain ⟨hb1, hb2⟩ := process_count_bound env u p hu hdl
      (tokenizeImgs md.data.length md.data []) s0 []
    by_cases he :
        ((process_toks env (tokenizeImgs md.data.length md.data []) s0 []).2).calls.count u
          = s0.calls.count u + 1
    · have hp1 := hb2 he
      obtain ⟨hc1, _⟩ := process_count_present env u p hu
        (tokenizeImgs md.data.length md.data [])
        ((process_toks env (tokenizeImgs md.data.length md.data []) s0 []).2) [] hp1
      rw [hc1, he, hcalls]
    · obtain ⟨hc1, _⟩ := process_count_bound env u p hu hdl
        (tokenizeImgs md.data.length md.data [])
        ((process_toks env (tokenizeImgs md.data.length md.data []) s0 []).2) []
      omega

/-- C7 fails on this code as stated for every output-directory state: when the
download fails (non-200 response or exception) no file is written, so a
second run over the same body finds the file still absent and downloads the
same URL again, issuing two calls in total. -/
theorem claim_C7_counterexample :
    ¬ (((process_markdown_images envFail c7md
          (process_markdown_images envFail c7md ⟨[], []⟩).2).2).calls.count c7url ≤ 1) := by
  decide

/-- Witness for the amended claim C7: with successful downloads, two runs over
the same body issue at most one call for the URL. -/
theorem claim_C7_witness :
    env0.dlOk c7url = true
    ∧ (⟨[], []⟩ : ImgState).calls.count c7url = 0
    ∧ ((process_markdown_images env0 c7md
          (process_markdown_images env0 c7md ⟨[], []⟩).2).2).calls.count c7url ≤ 1 :=
  ⟨rfl, rfl, claim_C7_amended env0 c7md ⟨[], []⟩ c7url rfl rfl⟩
